import Mathlib

/-!
Verification of the cyclic playback scheduler (Noise2.py).

A shallow embedding of the cyclic tone player: the parameter store
(`load_params`, `apply_params`), the waveform generator inside
`CyclicPlayer._run`, and a small-step operational semantics of the
interleaving between the background `_run` thread, `stop()` and
parameter updates.  Python floats are modelled as rationals (and as
reals where `sin` is involved); Python `int()` truncation is `pyInt`.
-/

/-- Truncation toward zero, Python's `int()` on a float. -/
def pyInt (q : ℚ) : ℤ := if 0 ≤ q then ⌊q⌋ else ⌈q⌉

/-- The clamp `max(0, min(1, x))` applied to the volume field. -/
def clamp01 (q : ℚ) : ℚ := max 0 (min 1 q)

/-- The four playback parameters held in the global `params` dict. -/
structure Params where
  frequency : ℚ
  volume : ℚ
  play_sec : ℚ
  cycle_sec : ℚ
deriving DecidableEq, Repr

/-- The `DEFAULT` dict: 440 Hz, volume 0.001, play 1 s, cycle 60 s. -/
def DEFAULT : Params := ⟨440, 1/1000, 1, 60⟩

/-- Model of `apply_params`: each GUI entry is parsed with `float(...)` in order
(frequency, volume, play_sec, cycle_sec); `none` models a `ValueError`.
The first failing parse aborts the update, but every field parsed
before it has already been written into the shared dict.  Volume is
clamped into `[0,1]`, both durations are lower-bounded by `0.1`;
`save_params` runs only when all four parse. -/
def apply_params (prior : Params) (f v p c : Option ℚ) : Params :=
  match f with
  | none => prior
  | some fv =>
    let s1 : Params := { prior with frequency := fv }
    match v with
    | none => s1
    | some vv =>
      let s2 : Params := { s1 with volume := clamp01 vv }
      match p with
      | none => s2
      | some pv =>
        let s3 : Params := { s2 with play_sec := max (1/10) pv }
        match c with
        | none => s3
        | some cv => { s3 with cycle_sec := max (1/10) cv }

/-- Whether `apply_params` reaches `save_params` (all four parse). -/
def apply_params_saves (f v p c : Option ℚ) : Bool :=
  f.isSome && v.isSome && p.isSome && c.isSome

/-- One stored field as `float()` sees it: absent from the JSON dict,
convertible to a float (a number or numeric string), or a value on
which `float(...)` raises. -/
inductive FieldVal where
  | absent
  | conv (q : ℚ)
  | unconv
deriving DecidableEq, Repr

/-- The four entries of the parameter file's JSON dict. -/
structure FileFields where
  frequency : FieldVal
  volume : FieldVal
  play_sec : FieldVal
  cycle_sec : FieldVal
deriving DecidableEq, Repr

/-- State of `params.json`: missing, unparsable JSON, or a dict. -/
inductive FileState where
  | absent
  | badJson
  | good (d : FileFields)
deriving DecidableEq, Repr

/-- One field of `type(DEFAULT[k])(data.get(k, DEFAULT[k]))`: a missing
key falls back to the default, a convertible value converts, and an
unconvertible value raises (`none`). -/
def getField (fv : FieldVal) (dflt : ℚ) : Option ℚ :=
  match fv with
  | .absent => some dflt
  | .conv q => some q
  | .unconv => none

/-- Model of `load_params`: a missing file returns `DEFAULT.copy()`; a file that
`json.load` cannot parse raises (the exception propagates, modelled as
`Except.error`); with a parsed dict, each field is fetched with its
default and converted, and a failing conversion raises for the whole
load. -/
def load_params (fs : FileState) : Except Unit Params :=
  match fs with
  | .absent => .ok DEFAULT
  | .badJson => .error ()
  | .good d =>
    match getField d.frequency DEFAULT.frequency,
          getField d.volume DEFAULT.volume,
          getField d.play_sec DEFAULT.play_sec,
          getField d.cycle_sec DEFAULT.cycle_sec with
    | some f, some v, some p, some c => .ok ⟨f, v, p, c⟩
    | _, _, _, _ => .error ()

/-- The sample count `int(play_sec * fs)`, the buffer length in samples computed at the
top of `_run` (Python `int()` truncates, it does not round). -/
def playSamples (p : ℚ) (fs : ℕ) : ℕ := (pyInt (p * fs)).toNat

/-- The mono sine buffer `params['volume'] * np.sin(2*np.pi*params['frequency']*t)`
with `t = np.arange(play_samples) / fs`. -/
noncomputable def sig (cfg : Params) (fs : ℕ) : List ℝ :=
  (List.range (playSamples cfg.play_sec fs)).map fun i : ℕ =>
    (cfg.volume : ℝ) * Real.sin (2 * Real.pi * (cfg.frequency : ℝ) * (i : ℝ) / (fs : ℝ))

/-- The stereo pairing `np.column_stack([sig, sig])`: the mono buffer duplicated onto both
stereo channels. -/
noncomputable def stereoSig (cfg : Params) (fs : ℕ) : List (ℝ × ℝ) :=
  (sig cfg fs).map fun x => (x, x)

/-- Observable actions of the program: the two audio calls the loop
issues (`sd.play` of the tone, `sd.play` of the silence buffer), the
status updates, the two halves of `stop()` (its `sd.stop()` call and
its return to the caller), and the GUI level readout `update_levels` —
the last is part of the program's surface even though (as proved below)
the loop never emits it. -/
inductive Ev where
  | playStart (freq vol : ℚ) (nsamples : ℤ)
  | silenceStart (nsamples : ℤ)
  | statusWaiting
  | statusStopped
  | sdStopCall
  | stopReturn
  | updateLevels (l r : ℚ)
deriving DecidableEq, Repr

/-- Position of the background `_run` thread inside its body. -/
inductive PC where
  | entry
  | loopHead
  | playPhase
  | idleInit
  | idleLoop
  | finished
  | crashed
deriving DecidableEq, Repr

/-- Shared state of the process: the live `params` dict, the
`_stop_evt` flag, whether the `_run` thread is alive and where it
stands, the thread-local snapshots `play_samples` / `cycle_samples`
taken at the top of `_run`, the remaining iterations of the idle wait
loop, and the trace of emitted actions. -/
structure Sys where
  params : Params
  stopEvt : Bool
  threadAlive : Bool
  pc : PC
  snapPlay : ℤ
  snapCycle : ℤ
  ticksLeft : ℕ
  events : List Ev
deriving DecidableEq, Repr

/-- State of the process right after `start()` spawned `_run`. -/
def initSys (p0 : Params) : Sys :=
  { params := p0, stopEvt := false, threadAlive := true, pc := .entry,
    snapPlay := 0, snapCycle := 0, ticksLeft := 0, events := [] }

/-- Lines 60–63 of `_run`: `play_samples` and `cycle_samples` are
computed once, from the live config, before the loop; `np.zeros` with a
negative first dimension (cycle shorter than play) raises and kills the
thread. -/
def entryNext (fs : ℕ) (s : Sys) : Sys :=
  let p := pyInt (s.params.play_sec * fs)
  let c := pyInt (s.params.cycle_sec * fs)
  if c - p < 0 then
    { s with snapPlay := p, snapCycle := c, pc := .crashed, threadAlive := false }
  else
    { s with snapPlay := p, snapCycle := c, pc := .loopHead }

/-- The `while` test passed (`_stop_evt` clear): the thread is about to
play the tone. -/
def passNext (s : Sys) : Sys := { s with pc := .playPhase }

/-- The `while` test failed: the loop exits, the final status is
emitted and the thread terminates. -/
def exitNext (s : Sys) : Sys :=
  { s with pc := .finished, threadAlive := false,
           events := s.events ++ [.statusStopped] }

/-- The play phase: the tone is generated from the LIVE frequency and
volume but with the `play_samples` snapshot taken at thread start, then
played and awaited; the "waiting" status follows. -/
def playNext (s : Sys) : Sys :=
  { s with pc := .idleInit,
           events := s.events
             ++ [.playStart s.params.frequency s.params.volume s.snapPlay,
                 .statusWaiting] }

/-- Start of the idle wait: the silence buffer (thread-start snapshot
length) is handed to `sd.play`, and the tick count of the wait loop is
computed as `int(cycle_sec - play_sec)` from the LIVE config. -/
def idleInitNext (s : Sys) : Sys :=
  { s with pc := .idleLoop,
           ticksLeft := (pyInt (s.params.cycle_sec - s.params.play_sec)).toNat,
           events := s.events ++ [.silenceStart (s.snapCycle - s.snapPlay)] }

/-- One one-second tick of `self._stop_evt.wait(1)` elapsed with the
event still clear. -/
def tickNext (s : Sys) : Sys := { s with ticksLeft := s.ticksLeft - 1 }

/-- The idle wait ends (its `for` range is exhausted, or `wait(1)`
observed the stop event and the loop breaks): back to the `while`
test. -/
def backToLoop (s : Sys) : Sys := { s with pc := .loopHead }

/-- Effect of `stop()`: sets `_stop_evt`, calls `sd.stop()` and returns at once —
it does not join the thread, so `threadAlive` and `pc` are untouched. -/
def stopNext (s : Sys) : Sys :=
  { s with stopEvt := true, events := s.events ++ [.sdStopCall, .stopReturn] }

/-- An `apply_params` call from the GUI: the shared dict is replaced. -/
def updateNext (s : Sys) (f v p c : Option ℚ) : Sys :=
  { s with params := apply_params s.params f v p c }

/-- Small-step interleaving of the `_run` thread with `stop()` and
`apply_params` calls from other threads. -/
inductive Step (fs : ℕ) : Sys → Sys → Prop where
  | entry (s : Sys) :
      s.threadAlive = true → s.pc = .entry → Step fs s (entryNext fs s)
  | exitLoop (s : Sys) :
      s.threadAlive = true → s.pc = .loopHead → s.stopEvt = true →
      Step fs s (exitNext s)
  | passTest (s : Sys) :
      s.threadAlive = true → s.pc = .loopHead → s.stopEvt = false →
      Step fs s (passNext s)
  | play (s : Sys) :
      s.threadAlive = true → s.pc = .playPhase → Step fs s (playNext s)
  | idleStart (s : Sys) :
      s.threadAlive = true → s.pc = .idleInit → Step fs s (idleInitNext s)
  | idleTick (s : Sys) :
      s.threadAlive = true → s.pc = .idleLoop → 0 < s.ticksLeft →
      s.stopEvt = false → Step fs s (tickNext s)
  | idleBreak (s : Sys) :
      s.threadAlive = true → s.pc = .idleLoop → 0 < s.ticksLeft →
      s.stopEvt = true → Step fs s (backToLoop s)
  | idleDone (s : Sys) :
      s.threadAlive = true → s.pc = .idleLoop → s.ticksLeft = 0 →
      Step fs s (backToLoop s)
  | callStop (s : Sys) : Step fs s (stopNext s)
  | callUpdate (s : Sys) (f v p c : Option ℚ) :
      Step fs s (updateNext s f v p c)

/-- Zero or more interleaved steps. -/
def Reaches (fs : ℕ) : Sys → Sys → Prop := Relation.ReflTransGen (Step fs)

/-- The events that begin audio activity: a tone or a silence buffer
handed to the device. -/
def audioEv : Ev → Bool
  | .playStart _ _ _ => true
  | .silenceStart _ => true
  | _ => false

/-- How many audio phases have begun in a trace. -/
def audioCount (l : List Ev) : ℕ := (l.filter audioEv).length

/-- Cancellation has been signalled and the thread is past any point
that would still start audio: it is dead, or sits at a program point
other than the two audio-emitting ones. -/
def Quiet (s : Sys) : Prop :=
  s.stopEvt = true
  ∧ (s.threadAlive = false ∨ (s.pc ≠ .playPhase ∧ s.pc ≠ .idleInit))

/-- The fields of `CyclicPlayer` seen by `start()` and `stop()`:
whether `self._thread` is alive, and `self._stop_evt`. -/
structure PlayerCtl where
  threadAlive : Bool
  stopEvt : Bool
deriving DecidableEq, Repr

namespace CyclicPlayer

/-- Effect of `start()`: returns at once if the thread is alive, otherwise clears
the stop event and spawns a fresh `_run` thread. -/
def start (s : PlayerCtl) : PlayerCtl :=
  if s.threadAlive then s else { threadAlive := true, stopEvt := false }

/-- Effect of `stop()`: sets the stop event (and calls `sd.stop()`, which has no
effect on these fields); it never raises and never waits. -/
def stop (s : PlayerCtl) : PlayerCtl := { s with stopEvt := true }

end CyclicPlayer
/-- C3 counterexample: `apply_params` accepts play 5 s with cycle 1 s;
the written config violates `cycleSeconds ≥ playSeconds`, so the
invariant is not enforced at config-write time. -/
theorem apply_params_violates_cycle_ge_play :
    (apply_params DEFAULT (some 440) (some (1/2)) (some 5) (some 1)).cycle_sec
      < (apply_params DEFAULT (some 440) (some (1/2)) (some 5) (some 1)).play_sec := by
  norm_num [apply_params, DEFAULT, clamp01, max_def, min_def]

/-- C3 (amended): after a fully parsed update, volume lies in `[0,1]`
and both durations are at least `0.1` — these clamps are the only
validation; no relation between `cycle_sec` and `play_sec` is imposed. -/
theorem apply_params_clamps :
    ∀ (prior : Params) (fv vv pv cv : ℚ),
      0 ≤ (apply_params prior (some fv) (some vv) (some pv) (some cv)).volume
      ∧ (apply_params prior (some fv) (some vv) (some pv) (some cv)).volume ≤ 1
      ∧ 1/10 ≤ (apply_params prior (some fv) (some vv) (some pv) (some cv)).play_sec
      ∧ 1/10 ≤ (apply_params prior (some fv) (some vv) (some pv) (some cv)).cycle_sec := by
  intro prior fv vv pv cv
  refine ⟨?_, ?_, ?_, ?_⟩ <;> simp [apply_params, clamp01]

/-- C6 counterexample: an update whose volume entry fails to parse is
"rejected" yet has already overwritten the frequency field (partial
mutation), and amplitude 1.5 is clamped to 1.0 rather than rejected. -/
theorem apply_params_not_atomic :
    (apply_params DEFAULT (some 100) none none none).frequency = 100
    ∧ (100 : ℚ) ≠ DEFAULT.frequency
    ∧ (apply_params DEFAULT (some 440) (some (3/2)) (some 1) (some 60)).volume = 1
    ∧ (1 : ℚ) ≠ DEFAULT.volume := by
  norm_num [apply_params, DEFAULT, clamp01, max_def, min_def]

/-- C6 (amended): fields are parsed in order frequency, volume,
play_sec, cycle_sec; the first parse failure aborts the update leaving
later fields untouched but earlier fields already mutated; volume is
clamped into `[0,1]` (1.5 becomes 1.0) instead of being rejected; the
config is persisted only when all four entries parse. -/
theorem apply_params_sequential :
    ∀ (prior : Params) (fv vv : ℚ) (p c : Option ℚ),
      (apply_params prior none (some vv) p c = prior
        ∧ apply_params prior (some fv) none p c
            = { prior with frequency := fv }
        ∧ (apply_params prior (some fv) (some vv) p c).volume = clamp01 vv
        ∧ (apply_params prior (some fv) (some vv) none c).play_sec
            = prior.play_sec)
      ∧ apply_params_saves (some fv) (some vv) none c = false
      ∧ apply_params_saves (some fv) (some vv) (some 1) (some 1) = true := by
  intro prior fv vv p c
  refine ⟨⟨rfl, rfl, ?_, rfl⟩, ?_, rfl⟩
  · cases p <;> cases c <;> rfl
  · simp [apply_params_saves]

/-- C8 counterexample: a file whose JSON does not parse, and a file
whose frequency field `float()` cannot convert, both raise out of
`load_params` instead of returning defaults. -/
theorem load_params_raises_on_corrupt :
    load_params .badJson ≠ .ok DEFAULT
    ∧ load_params (.good ⟨.unconv, .absent, .absent, .absent⟩) ≠ .ok DEFAULT
    ∧ load_params .badJson = .error ()
    ∧ load_params (.good ⟨.unconv, .absent, .absent, .absent⟩) = .error () := by
  refine ⟨?_, ?_, rfl, rfl⟩ <;> intro h <;> exact Except.noConfusion h

/-- C8 (amended): a missing file yields the defaults and a missing
field falls back to its individual default, but unparsable JSON or a
field on which `float()` raises fails the whole load. -/
theorem load_params_defaults :
    (load_params .absent = .ok DEFAULT)
    ∧ (∀ q : ℚ, load_params (.good ⟨.conv q, .absent, .absent, .absent⟩)
        = .ok { DEFAULT with frequency := q })
    ∧ (∀ q : ℚ, load_params (.good ⟨.absent, .conv q, .absent, .absent⟩)
        = .ok { DEFAULT with volume := q })
    ∧ (load_params .badJson = .error ())
    ∧ (∀ d : FileFields, d.volume = .unconv → load_params (.good d) = .error ()) := by
  refine ⟨rfl, fun q => rfl, fun q => rfl, rfl, ?_⟩
  intro d h
  obtain ⟨f, v, p, c⟩ := d
  simp only at h
  subst h
  cases f <;> cases p <;> cases c <;> rfl

/-- C8 witness: a dict whose volume field cannot be converted makes the
whole load fail. -/
theorem load_params_defaults_witness :
    ((⟨.absent, .unconv, .absent, .absent⟩ : FileFields).volume = .unconv)
    ∧ load_params (.good ⟨.absent, .unconv, .absent, .absent⟩) = .error () :=
  ⟨rfl, load_params_defaults.2.2.2.2 ⟨.absent, .unconv, .absent, .absent⟩ rfl⟩


/-- C4 counterexample: with play_sec 0.15 and sample rate 10 the buffer
holds `int(1.5) = 1` sample, not `round(1.5) = 2`: the sample count is
truncated, not rounded. -/
theorem waveform_count_not_round :
    (sig ⟨440, 1/1000, 3/20, 60⟩ 10).length ≠ (round (((3:ℚ)/20) * 10)).toNat := by
  have h1 : (sig ⟨440, 1/1000, 3/20, 60⟩ 10).length = playSamples ((3:ℚ)/20) 10 := by
    simp only [sig, List.length_map, List.length_range]
  have h2 : round (((3:ℚ)/20) * 10) = 2 := by
    rw [round_eq]; norm_num
  have h3 : playSamples ((3:ℚ)/20) 10 = 1 := by
    have h4 : pyInt ((3:ℚ)/20 * ((10:ℕ) : ℚ)) = 1 := by norm_num [pyInt]
    rw [playSamples, h4]
    decide
  rw [h1, h2, h3]
  decide

/-- C4 (amended): the generated buffer has `int(play_sec * fs)` samples
(truncated, not rounded); the sample at index `i` equals
`volume * sin(2*pi*frequency*i/fs)`; and the two stereo channels are
identical at every index. -/
theorem waveform_generate_spec :
    ∀ (cfg : Params) (fs : ℕ),
      (sig cfg fs).length = playSamples cfg.play_sec fs
      ∧ (∀ i, i < (sig cfg fs).length →
          (sig cfg fs).getD i 0
            = (cfg.volume : ℝ) * Real.sin (2 * Real.pi * (cfg.frequency : ℝ) * i / fs))
      ∧ (∀ i, ((stereoSig cfg fs).getD i (0, 0)).1
            = ((stereoSig cfg fs).getD i (0, 0)).2) := by
  intro cfg fs
  refine ⟨by simp only [sig, List.length_map, List.length_range], ?_, ?_⟩
  · intro i hi
    rw [List.getD_eq_getElem (sig cfg fs) 0 hi]
    simp only [sig, List.getElem_map, List.getElem_range]
  · intro i
    rcases lt_or_ge i (stereoSig cfg fs).length with h | h
    · rw [List.getD_eq_getElem (stereoSig cfg fs) (0, 0) h]
      simp only [stereoSig, List.getElem_map]
    · rw [List.getD_eq_default (stereoSig cfg fs) (0, 0) h]

/-- C4 witness: at the default config and sample rate 10, index 0 is in
range and the sample formula holds there. -/
theorem waveform_generate_spec_witness :
    0 < (sig DEFAULT 10).length
    ∧ (sig DEFAULT 10).getD 0 0
        = (DEFAULT.volume : ℝ)
            * Real.sin (2 * Real.pi * (DEFAULT.frequency : ℝ) * (0 : ℕ) / 10) := by
  have h : 0 < (sig DEFAULT 10).length := by
    rw [(waveform_generate_spec DEFAULT 10).1]
    have h10 : pyInt (DEFAULT.play_sec * ((10:ℕ) : ℚ)) = 10 := by norm_num [pyInt, DEFAULT]
    rw [playSamples, h10]
    decide
  exact ⟨h, (waveform_generate_spec DEFAULT 10).2.1 0 h⟩

/-- C10: when the volume field was written by a successful
`apply_params` update (hence clamped into `[0,1]`), every sample of the
generated buffer is bounded in absolute value by the volume, and in
particular lies within `[-1, 1]`: the output never clips. -/
theorem generated_samples_never_clip :
    ∀ (cfg : Params) (fs : ℕ) (i : ℕ) (v0 : ℚ),
      cfg.volume = clamp01 v0 →
      |(sig cfg fs).getD i 0| ≤ (cfg.volume : ℝ)
      ∧ |(sig cfg fs).getD i 0| ≤ 1 := by
  intro cfg fs i v0 hv
  have h0 : (0 : ℚ) ≤ cfg.volume := by rw [hv]; exact le_max_left 0 _
  have h1 : cfg.volume ≤ 1 := by
    rw [hv]
    exact max_le (by norm_num) (min_le_left 1 v0)
  have h0R : (0 : ℝ) ≤ (cfg.volume : ℝ) := by exact_mod_cast h0
  have h1R : ((cfg.volume : ℚ) : ℝ) ≤ 1 := by exact_mod_cast h1
  have hbound : |(sig cfg fs).getD i 0| ≤ (cfg.volume : ℝ) := by
    rcases lt_or_ge i (sig cfg fs).length with h | h
    · rw [List.getD_eq_getElem (sig cfg fs) 0 h]
      simp only [sig, List.getElem_map, List.getElem_range]
      rw [abs_mul]
      calc |(cfg.volume : ℝ)| * |Real.sin (2 * Real.pi * (cfg.frequency : ℝ) * _ / fs)|
          ≤ |(cfg.volume : ℝ)| * 1 :=
            mul_le_mul_of_nonneg_left (Real.abs_sin_le_one _) (abs_nonneg _)
        _ = (cfg.volume : ℝ) := by rw [mul_one, abs_of_nonneg h0R]
    · rw [List.getD_eq_default (sig cfg fs) 0 h]
      simpa using h0R
  exact ⟨hbound, le_trans hbound h1R⟩

/-- C10 witness: a config whose volume is the clamp of 1.5 (namely 1.0)
generates samples bounded by that volume. -/
theorem generated_samples_never_clip_witness :
    ((⟨440, 1, 1, 60⟩ : Params).volume = clamp01 (3/2))
    ∧ |(sig ⟨440, 1, 1, 60⟩ 10).getD 0 0| ≤ (((⟨440, 1, 1, 60⟩ : Params).volume : ℚ) : ℝ) :=
  ⟨by norm_num [clamp01, max_def, min_def],
   (generated_samples_never_clip ⟨440, 1, 1, 60⟩ 10 0 (3/2)
     (by norm_num [clamp01, max_def, min_def])).1⟩

/-- Appending traces adds their audio counts. -/
theorem audioCount_append (l₁ l₂ : List Ev) :
    audioCount (l₁ ++ l₂) = audioCount l₁ + audioCount l₂ := by
  simp [audioCount, List.filter_append]

/-- One interleaved step from a quiet state (stop signalled, thread not
about to emit audio) stays quiet and begins no audio phase. -/
theorem quiet_step {fs : ℕ} {s s' : Sys} (h : Step fs s s') (hq : Quiet s) :
    Quiet s' ∧ audioCount s'.events = audioCount s.events := by
  obtain ⟨hev, hrest⟩ := hq
  cases h with
  | entry hA hP =>
    rw [entryNext]
    split
    · exact ⟨⟨hev, Or.inl rfl⟩, rfl⟩
    · exact ⟨⟨hev, Or.inr ⟨by simp, by simp⟩⟩, rfl⟩
  | exitLoop hA hP hE =>
    refine ⟨⟨hev, Or.inl rfl⟩, ?_⟩
    simp [exitNext, audioCount_append, audioCount, audioEv]
  | passTest hA hP hE => rw [hev] at hE; cases hE
  | play hA hP =>
    rcases hrest with hdead | ⟨hne, _⟩
    · rw [hA] at hdead; cases hdead
    · exact absurd hP hne
  | idleStart hA hP =>
    rcases hrest with hdead | ⟨_, hne⟩
    · rw [hA] at hdead; cases hdead
    · exact absurd hP hne
  | idleTick hA hP hT hE => rw [hev] at hE; cases hE
  | idleBreak hA hP hT hE =>
    exact ⟨⟨hev, Or.inr ⟨by simp [backToLoop], by simp [backToLoop]⟩⟩, rfl⟩
  | idleDone hA hP hT =>
    exact ⟨⟨hev, Or.inr ⟨by simp [backToLoop], by simp [backToLoop]⟩⟩, rfl⟩
  | callStop =>
    refine ⟨⟨rfl, ?_⟩, ?_⟩
    · simpa [stopNext] using hrest
    · simp [stopNext, audioCount_append, audioCount, audioEv]
  | callUpdate f v p c =>
    exact ⟨⟨hev, by simpa [updateNext] using hrest⟩, rfl⟩

/-- Quietness is preserved along any trace, with no new audio phase. -/
theorem quiet_reaches {fs : ℕ} {s s' : Sys} (h : Reaches fs s s') (hq : Quiet s) :
    Quiet s' ∧ audioCount s'.events = audioCount s.events := by
  have h' : Relation.ReflTransGen (Step fs) s s' := h
  clear h
  induction h' with
  | refl => exact ⟨hq, rfl⟩
  | tail hab hbc ih =>
    obtain ⟨hqb, hcount⟩ := ih
    obtain ⟨hqc, hcount2⟩ := quiet_step hbc hqb
    exact ⟨hqc, hcount2.trans hcount⟩

/-- No step ever appends an `update_levels` event to the trace. -/
theorem levels_step {fs : ℕ} {s s' : Sys} (h : Step fs s s')
    (hn : ∀ l r : ℚ, Ev.updateLevels l r ∉ s.events) :
    ∀ l r : ℚ, Ev.updateLevels l r ∉ s'.events := by
  cases h with
  | entry hA hP =>
    intro l r
    rw [entryNext]
    split
    · exact hn l r
    · exact hn l r
  | exitLoop hA hP hE =>
    intro l r
    simp only [exitNext, List.mem_append, List.mem_singleton]
    rintro (h | h)
    · exact hn l r h
    · exact Ev.noConfusion h
  | passTest hA hP hE => exact hn
  | play hA hP =>
    intro l r
    simp only [playNext, List.mem_append, List.mem_cons,
      List.mem_singleton, List.not_mem_nil]
    rintro (h | h | h | h)
    · exact hn l r h
    · exact Ev.noConfusion h
    · exact Ev.noConfusion h
    · exact h
  | idleStart hA hP =>
    intro l r
    simp only [idleInitNext, List.mem_append, List.mem_singleton]
    rintro (h | h)
    · exact hn l r h
    · exact Ev.noConfusion h
  | idleTick hA hP hT hE => exact hn
  | idleBreak hA hP hT hE => exact hn
  | idleDone hA hP hT => exact hn
  | callStop =>
    intro l r
    simp only [stopNext, List.mem_append, List.mem_cons,
      List.mem_singleton, List.not_mem_nil]
    rintro (h | h | h | h)
    · exact hn l r h
    · exact Ev.noConfusion h
    · exact Ev.noConfusion h
    · exact h
  | callUpdate f v p c => exact hn

/-- C9: in every execution of the program from a fresh start, no state
ever carries an `update_levels` event: the `_run` loop plays audio but
never calls `update_levels`, so the L/R level labels keep their initial
zero reading even while a tone is playing. -/
theorem run_never_updates_levels :
    ∀ (fs : ℕ) (p0 : Params) (s : Sys), Reaches fs (initSys p0) s →
      ∀ l r : ℚ, Ev.updateLevels l r ∉ s.events := by
  intro fs p0 s h
  have h' : Relation.ReflTransGen (Step fs) (initSys p0) s := h
  clear h
  induction h' with
  | refl => intro l r; simp [initSys]
  | tail hab hbc ih => exact levels_step hbc ih

/-- C9 witness: the initial state itself is reachable and carries no
`update_levels` event. -/
theorem run_never_updates_levels_witness :
    Reaches 10 (initSys DEFAULT) (initSys DEFAULT)
    ∧ Ev.updateLevels 0 0 ∉ (initSys DEFAULT).events :=
  ⟨Relation.ReflTransGen.refl,
   run_never_updates_levels 10 DEFAULT (initSys DEFAULT)
     Relation.ReflTransGen.refl 0 0⟩

/-- C1 (amended): `stop()` sets the cancellation flag and calls
`sd.stop()` but returns without joining the thread (`threadAlive` and
`pc` are untouched by it); and once the flag is set and the thread is
past the two audio-emitting program points, no play or silence phase
ever begins again — but the in-flight iteration (claimed impossible by
the spec) is covered by the counterexample below. -/
theorem stop_signals_but_does_not_join :
    (∀ s : Sys, (stopNext s).threadAlive = s.threadAlive
        ∧ (stopNext s).pc = s.pc ∧ (stopNext s).stopEvt = true)
    ∧ (∀ (fs : ℕ) (s s' : Sys), Quiet s → Reaches fs s s' →
        audioCount s'.events = audioCount s.events) := by
  refine ⟨fun s => ⟨rfl, rfl, rfl⟩, ?_⟩
  intro fs s s' hq h
  exact (quiet_reaches h hq).2

/-- C1 witness: a concrete quiet state, from which the empty trace
begins no audio. -/
theorem stop_signals_but_does_not_join_witness :
    Quiet ⟨DEFAULT, true, true, .loopHead, 0, 0, 0, []⟩
    ∧ audioCount (⟨DEFAULT, true, true, .loopHead, 0, 0, 0, []⟩ : Sys).events
        = audioCount (⟨DEFAULT, true, true, .loopHead, 0, 0, 0, []⟩ : Sys).events :=
  ⟨⟨rfl, Or.inr ⟨by decide, by decide⟩⟩,
   stop_signals_but_does_not_join.2 10 _ _
     ⟨rfl, Or.inr ⟨by decide, by decide⟩⟩ Relation.ReflTransGen.refl⟩

/-- C1 counterexample: an interleaving in which the loop passes its
`while` test, `stop()` then runs to completion (`sd.stop` called, flag
set, callers unblocked), and the thread STILL begins a play phase: the
final trace shows `playStart` strictly after `stopReturn`, refuting
"no further play or silence phase begins after stop() returns". -/
theorem stop_no_join_cex :
    Reaches 10 (initSys DEFAULT)
      ⟨DEFAULT, true, true, .idleInit, 10, 600, 0,
       [.sdStopCall, .stopReturn, .playStart 440 (1/1000) 10, .statusWaiting]⟩ := by
  have h1 : entryNext 10 (initSys DEFAULT)
      = (⟨DEFAULT, false, true, .loopHead, 10, 600, 0, []⟩ : Sys) := by
    simp only [entryNext, initSys]
    norm_num [pyInt, DEFAULT]
  have st1 : Step 10 (initSys DEFAULT)
      (⟨DEFAULT, false, true, .loopHead, 10, 600, 0, []⟩ : Sys) :=
    h1 ▸ Step.entry (initSys DEFAULT) rfl rfl
  have st2 : Step 10 (⟨DEFAULT, false, true, .loopHead, 10, 600, 0, []⟩ : Sys)
      (⟨DEFAULT, false, true, .playPhase, 10, 600, 0, []⟩ : Sys) :=
    Step.passTest _ rfl rfl rfl
  have st3 : Step 10 (⟨DEFAULT, false, true, .playPhase, 10, 600, 0, []⟩ : Sys)
      (⟨DEFAULT, true, true, .playPhase, 10, 600, 0,
        [.sdStopCall, .stopReturn]⟩ : Sys) :=
    Step.callStop _
  have st4 : Step 10 (⟨DEFAULT, true, true, .playPhase, 10, 600, 0,
        [.sdStopCall, .stopReturn]⟩ : Sys)
      (⟨DEFAULT, true, true, .idleInit, 10, 600, 0,
        [.sdStopCall, .stopReturn, .playStart 440 (1/1000) 10, .statusWaiting]⟩ : Sys) :=
    Step.play _ rfl rfl
  exact Relation.ReflTransGen.head st1
    (Relation.ReflTransGen.head st2
      (Relation.ReflTransGen.head st3
        (Relation.ReflTransGen.single st4)))

/-- C2 (amended): a full parameter update applied while the thread is
about to play does reach the next play phase: that phase reads the NEW
frequency and (clamped) NEW volume live from the shared dict, but its
buffer length is still the `play_samples` snapshot taken at thread
start, and the update does not change the remaining idle ticks. -/
theorem next_play_mixes_configs :
    ∀ (fs : ℕ) (s : Sys) (fv vv pv cv : ℚ),
      s.threadAlive = true → s.pc = .playPhase →
      Step fs (updateNext s (some fv) (some vv) (some pv) (some cv))
          (playNext (updateNext s (some fv) (some vv) (some pv) (some cv)))
      ∧ (playNext (updateNext s (some fv) (some vv) (some pv) (some cv))).events
          = s.events ++ [.playStart fv (clamp01 vv) s.snapPlay, .statusWaiting]
      ∧ (updateNext s (some fv) (some vv) (some pv) (some cv)).ticksLeft
          = s.ticksLeft := by
  intro fs s fv vv pv cv hA hP
  refine ⟨Step.play _ ?_ ?_, ?_, rfl⟩
  · simpa [updateNext] using hA
  · simpa [updateNext] using hP
  · simp [playNext, updateNext, apply_params]

/-- C2 witness: the mixed-config play step at a concrete state. -/
theorem next_play_mixes_configs_witness :
    ((⟨DEFAULT, false, true, .playPhase, 10, 600, 0, []⟩ : Sys).threadAlive = true)
    ∧ ((⟨DEFAULT, false, true, .playPhase, 10, 600, 0, []⟩ : Sys).pc = .playPhase)
    ∧ (playNext (updateNext ⟨DEFAULT, false, true, .playPhase, 10, 600, 0, []⟩
          (some 500) (some (1/2)) (some 2) (some 2))).events
        = (⟨DEFAULT, false, true, .playPhase, 10, 600, 0, []⟩ : Sys).events
            ++ [.playStart 500 (clamp01 (1/2))
                  (⟨DEFAULT, false, true, .playPhase, 10, 600, 0, []⟩ : Sys).snapPlay,
                .statusWaiting] :=
  ⟨rfl, rfl,
   (next_play_mixes_configs 10 ⟨DEFAULT, false, true, .playPhase, 10, 600, 0, []⟩
     500 (1/2) 2 2 rfl rfl).2.1⟩

/-- C2 counterexample: starting from config {440 Hz, vol 0.001, play 1 s,
cycle 2 s} at rate 10, a full update to {500 Hz, vol 0.5, play 2 s,
cycle 2 s} lands between the first play and the next one; the second
`playStart` in the reachable trace below uses the new frequency 500 and
new volume 1/2 but still only 10 samples — `int(2 * 10) = 20` samples
would be needed for the claimed "next play phase uses the new
playSeconds". -/
theorem next_play_keeps_stale_length_cex :
    Reaches 10 (initSys ⟨440, 1/1000, 1, 2⟩)
      ⟨⟨500, 1/2, 2, 2⟩, false, true, .idleInit, 10, 20, 0,
       [.playStart 440 (1/1000) 10, .statusWaiting, .silenceStart 10,
        .playStart 500 (1/2) 10, .statusWaiting]⟩
    ∧ pyInt ((2 : ℚ) * ((10:ℕ) : ℚ)) = 20
    ∧ (10 : ℤ) ≠ 20 := by
  have h1 : entryNext 10 (initSys ⟨440, 1/1000, 1, 2⟩)
      = (⟨⟨440, 1/1000, 1, 2⟩, false, true, .loopHead, 10, 20, 0, []⟩ : Sys) := by
    simp only [entryNext, initSys]
    norm_num [pyInt]
  have st1 : Step 10 (initSys ⟨440, 1/1000, 1, 2⟩)
      (⟨⟨440, 1/1000, 1, 2⟩, false, true, .loopHead, 10, 20, 0, []⟩ : Sys) :=
    h1 ▸ Step.entry (initSys ⟨440, 1/1000, 1, 2⟩) rfl rfl
  have st2 : Step 10
      (⟨⟨440, 1/1000, 1, 2⟩, false, true, .loopHead, 10, 20, 0, []⟩ : Sys)
      (⟨⟨440, 1/1000, 1, 2⟩, false, true, .playPhase, 10, 20, 0, []⟩ : Sys) :=
    Step.passTest _ rfl rfl rfl
  have st3 : Step 10
      (⟨⟨440, 1/1000, 1, 2⟩, false, true, .playPhase, 10, 20, 0, []⟩ : Sys)
      (⟨⟨440, 1/1000, 1, 2⟩, false, true, .idleInit, 10, 20, 0,
        [.playStart 440 (1/1000) 10, .statusWaiting]⟩ : Sys) :=
    Step.play _ rfl rfl
  have h4 : updateNext
      (⟨⟨440, 1/1000, 1, 2⟩, false, true, .idleInit, 10, 20, 0,
        [.playStart 440 (1/1000) 10, .statusWaiting]⟩ : Sys)
      (some 500) (some (1/2)) (some 2) (some 2)
      = (⟨⟨500, 1/2, 2, 2⟩, false, true, .idleInit, 10, 20, 0,
          [.playStart 440 (1/1000) 10, .statusWaiting]⟩ : Sys) := by
    simp only [updateNext, apply_params]
    norm_num [clamp01, max_def, min_def]
  have st4 : Step 10
      (⟨⟨440, 1/1000, 1, 2⟩, false, true, .idleInit, 10, 20, 0,
        [.playStart 440 (1/1000) 10, .statusWaiting]⟩ : Sys)
      (⟨⟨500, 1/2, 2, 2⟩, false, true, .idleInit, 10, 20, 0,
        [.playStart 440 (1/1000) 10, .statusWaiting]⟩ : Sys) :=
    h4 ▸ Step.callUpdate _ (some 500) (some (1/2)) (some 2) (some 2)
  have h5 : idleInitNext
      (⟨⟨500, 1/2, 2, 2⟩, false, true, .idleInit, 10, 20, 0,
        [.playStart 440 (1/1000) 10, .statusWaiting]⟩ : Sys)
      = (⟨⟨500, 1/2, 2, 2⟩, false, true, .idleLoop, 10, 20, 0,
          [.playStart 440 (1/1000) 10, .statusWaiting, .silenceStart 10]⟩ : Sys) := by
    simp only [idleInitNext]
    norm_num [pyInt]
  have st5 : Step 10
      (⟨⟨500, 1/2, 2, 2⟩, false, true, .idleInit, 10, 20, 0,
        [.playStart 440 (1/1000) 10, .statusWaiting]⟩ : Sys)
      (⟨⟨500, 1/2, 2, 2⟩, false, true, .idleLoop, 10, 20, 0,
        [.playStart 440 (1/1000) 10, .statusWaiting, .silenceStart 10]⟩ : Sys) :=
    h5 ▸ Step.idleStart _ rfl rfl
  have st6 : Step 10
      (⟨⟨500, 1/2, 2, 2⟩, false, true, .idleLoop, 10, 20, 0,
        [.playStart 440 (1/1000) 10, .statusWaiting, .silenceStart 10]⟩ : Sys)
      (⟨⟨500, 1/2, 2, 2⟩, false, true, .loopHead, 10, 20, 0,
        [.playStart 440 (1/1000) 10, .statusWaiting, .silenceStart 10]⟩ : Sys) :=
    Step.idleDone _ rfl rfl rfl
  have st7 : Step 10
      (⟨⟨500, 1/2, 2, 2⟩, false, true, .loopHead, 10, 20, 0,
        [.playStart 440 (1/1000) 10, .statusWaiting, .silenceStart 10]⟩ : Sys)
      (⟨⟨500, 1/2, 2, 2⟩, false, true, .playPhase, 10, 20, 0,
        [.playStart 440 (1/1000) 10, .statusWaiting, .silenceStart 10]⟩ : Sys) :=
    Step.passTest _ rfl rfl rfl
  have st8 : Step 10
      (⟨⟨500, 1/2, 2, 2⟩, false, true, .playPhase, 10, 20, 0,
        [.playStart 440 (1/1000) 10, .statusWaiting, .silenceStart 10]⟩ : Sys)
      (⟨⟨500, 1/2, 2, 2⟩, false, true, .idleInit, 10, 20, 0,
        [.playStart 440 (1/1000) 10, .statusWaiting, .silenceStart 10,
         .playStart 500 (1/2) 10, .statusWaiting]⟩ : Sys) :=
    Step.play _ rfl rfl
  refine ⟨?_, by norm_num [pyInt], by norm_num⟩
  exact Relation.ReflTransGen.head st1
    (Relation.ReflTransGen.head st2
      (Relation.ReflTransGen.head st3
        (Relation.ReflTransGen.head st4
          (Relation.ReflTransGen.head st5
            (Relation.ReflTransGen.head st6
              (Relation.ReflTransGen.head st7
                (Relation.ReflTransGen.single st8)))))))

/-- C5 (amended): the idle wait runs `int(cycle_sec - play_sec)` ticks
(floor of the live config's difference, not the exact difference), and
each pending tick observes the cancellation flag: with the flag set,
the wait loop's next step is to break out, so the wait contributes at
most one second of stop latency. -/
theorem idle_wait_floor_ticks :
    ∀ (fs : ℕ) (s t : Sys),
      (s.threadAlive = true → s.pc = .idleInit →
        Step fs s (idleInitNext s)
        ∧ (idleInitNext s).ticksLeft
            = (pyInt (s.params.cycle_sec - s.params.play_sec)).toNat)
      ∧ (t.threadAlive = true → t.pc = .idleLoop → 0 < t.ticksLeft →
          t.stopEvt = true → Step fs t (backToLoop t)) := by
  intro fs s t
  exact ⟨fun hA hP => ⟨Step.idleStart s hA hP, rfl⟩,
         fun hA hP hT hE => Step.idleBreak t hA hP hT hE⟩

/-- C5 witness: the idle-start step at a concrete state. -/
theorem idle_wait_floor_ticks_witness :
    ((⟨DEFAULT, false, true, .idleInit, 10, 600, 0, []⟩ : Sys).threadAlive = true)
    ∧ (idleInitNext ⟨DEFAULT, false, true, .idleInit, 10, 600, 0, []⟩).ticksLeft
        = (pyInt (DEFAULT.cycle_sec - DEFAULT.play_sec)).toNat :=
  ⟨rfl,
   ((idle_wait_floor_ticks 10 ⟨DEFAULT, false, true, .idleInit, 10, 600, 0, []⟩
      ⟨DEFAULT, false, true, .idleInit, 10, 600, 0, []⟩).1 rfl rfl).2⟩

/-- C5 counterexample: with play 1 s and cycle 2.5 s the idle wait is
`int(1.5) = 1` tick, i.e. one second, not the claimed exact
`cycleSeconds - playSeconds = 1.5` seconds. -/
theorem idle_wait_not_exact_cex :
    ((idleInitNext ⟨⟨440, 1/1000, 1, 5/2⟩, false, true, .idleInit, 10, 25, 0, []⟩).ticksLeft : ℚ)
      ≠ (5/2 : ℚ) - 1 := by
  have h : (idleInitNext
      (⟨⟨440, 1/1000, 1, 5/2⟩, false, true, .idleInit, 10, 25, 0, []⟩ : Sys)).ticksLeft = 1 := by
    simp only [idleInitNext]
    norm_num [pyInt]
  rw [h]
  norm_num

/-- C7: `start()` is idempotent (two consecutive calls leave the same
state as one, with exactly one live thread) and `stop()` is idempotent
(two consecutive calls equal one, the stop event set both times, no
error path exists). -/
theorem start_stop_idempotent :
    ∀ s : PlayerCtl,
      CyclicPlayer.start (CyclicPlayer.start s) = CyclicPlayer.start s
      ∧ (CyclicPlayer.start s).threadAlive = true
      ∧ CyclicPlayer.stop (CyclicPlayer.stop s) = CyclicPlayer.stop s
      ∧ (CyclicPlayer.stop s).stopEvt = true := by
  intro s
  by_cases h : s.threadAlive
  · simp [CyclicPlayer.start, CyclicPlayer.stop, h]
  · simp [CyclicPlayer.start, CyclicPlayer.stop, h]
